import Mathlib

/-!
Shallow embedding of the CloudBot web utilities (`cloudbot/util/web.py`) and
the page-check plugin (`plugins/pagecheck.py`), together with theorems
settling the specification claims about them.

Modelling conventions:
* Python exceptions become an explicit `PyErr` sum; fallible functions
  return `Except PyErr String`.  `requests`' `ConnectionError` and
  `HTTPError` (raised by `raise_for_status`) are distinct constructors from
  the module's own `ServiceError`, because the code distinguishes them in
  `except` clauses.
* Python dicts (`shorteners`, `pastebins`) become association lists in
  insertion (registration) order; `dict.pop(k, None)` becomes `popKey`,
  and `dict.popitem()` (LIFO in CPython) pops from the reversed remainder.
* External collaborators (the network, `urllib.parse`, BeautifulSoup) are
  oracle parameters: `requests.get`/`post` become functions yielding
  `Except PyErr Response`, URL parsing becomes a `String → String`
  parameter, and the soup `find(...)` step a `String → Option String`
  parameter.  Everything the claims depend on is translated from the code.
-/

namespace CloudBot

/-- Python exceptions that the translated code can raise or catch.
`serviceError` is `web.ServiceError` (message plus the response's HTTP
status, which is all `__str__` uses); `httpError` is
`requests.exceptions.HTTPError` raised by `raise_for_status`;
`connectionError` is `requests.exceptions.ConnectionError`; `keyError` and
`attributeError` model the corresponding Python builtins. -/
inductive PyErr where
  | serviceError (message : String) (status : Nat)
  | httpError (status : Nat)
  | connectionError
  | keyError (key : String)
  | attributeError
deriving DecidableEq, Repr

/-- An HTTP response as the translated code observes it: status code,
reason phrase, body text, and the `location` header (`none` when the
header is absent). -/
structure Response where
  status_code : Nat
  reason : String
  text : String
  location : Option String
deriving DecidableEq, Repr

/-- Boolean test that `needle` is a prefix of `hay` (character lists). -/
def leadsWith : List Char → List Char → Bool
  | [], _ => true
  | _ :: _, [] => false
  | a :: as, b :: bs => a == b && leadsWith as bs

/-- Boolean test that `needle` occurs as a contiguous run inside `hay`. -/
def hasSub (needle : List Char) : List Char → Bool
  | [] => needle.isEmpty
  | c :: rest => leadsWith needle (c :: rest) || hasSub needle rest

/-- Python's `needle in haystack` substring test on strings. -/
def strContains (haystack needle : String) : Bool :=
  hasSub needle.toList haystack.toList

/-- Drop leading whitespace characters from a character list. -/
def dropLeadingWS : List Char → List Char
  | [] => []
  | c :: rest => if c.isWhitespace then dropLeadingWS rest else c :: rest

/-- Python's `str.strip()`: remove leading and trailing whitespace. -/
def pyStrip (s : String) : String :=
  String.mk ((dropLeadingWS ((dropLeadingWS s.toList).reverse)).reverse)

/-- The `requests` library's `Response.raise_for_status`: raises
`HTTPError` exactly when the status code is a 4xx or 5xx. -/
def raiseForStatus (r : Response) : Except PyErr Unit :=
  if 400 ≤ r.status_code ∧ r.status_code < 600 then
    Except.error (PyErr.httpError r.status_code)
  else
    Except.ok ()

/-- `web.DEFAULT_PASTEBIN`. -/
def DEFAULT_PASTEBIN : String := "hastebin"

/-- `web.DEFAULT_SHORTENER`. -/
def DEFAULT_SHORTENER : String := "is.gd"

/-- A pastebin backend: its `paste(data, ext)` method, which either
returns a paste URL or raises. -/
structure PastebinImpl where
  paste : String → String → Except PyErr String

/-- Python's `dict.pop(k, default)` on an insertion-ordered association
list: remove the (unique) entry keyed `k` and return its value together
with the remaining list, or `none` when the key is absent. -/
def popKey {α : Type} (k : String) : List (String × α) → Option (α × List (String × α))
  | [] => none
  | (k', v) :: rest =>
    if k' = k then some (v, rest)
    else
      match popKey k rest with
      | none => none
      | some (v', rest') => some (v', (k', v) :: rest')

/-- The body of `web.paste`'s `while impl:` loop, unfolded over the
sequence of backends it will try (the explicitly selected one first, then
`bins.popitem()` results, which in CPython come in reverse insertion
order).  Each attempt catches only `ServiceError`; any other exception
propagates.  Exhausting the list yields the failure sentinel. -/
def pasteAttempts (data ext : String) : List (String × PastebinImpl) → Except PyErr String
  | [] => Except.ok "Unable to paste data"
  | (_, impl) :: rest =>
    match impl.paste data ext with
    | Except.ok url => Except.ok url
    | Except.error (PyErr.serviceError _ _) => pasteAttempts data ext rest
    | Except.error e => Except.error e

/-- `web.paste(data, ext, service)` over an explicit pastebin registry:
copy the registry, `pop` the requested service (no exception when it is
absent — the loop is then never entered), and run the fallback loop. -/
def paste (data ext service : String) (registry : List (String × PastebinImpl)) :
    Except PyErr String :=
  match popKey service registry with
  | none => Except.ok "Unable to paste data"
  | some (impl, rest) => pasteAttempts data ext ((service, impl) :: rest.reverse)

/-- A shortener backend, as an object: the overridable `shorten` and
`expand` methods.  (`try_shorten` is never overridden, so it is the
module-level `tryShortenMethod` below.) -/
structure ShortenerImpl where
  shorten : String → Option String → Option String → Except PyErr String
  expand : String → Except PyErr String

/-- The base `Shortener.expand`: GET the url without following redirects;
`raise_for_status` failures are re-raised as `ServiceError` carrying the
response's reason and status; otherwise return the `location` header, or
raise `ServiceError` when it is absent.  A `ConnectionError` from the GET
itself is outside the `try` block and propagates unchanged. -/
def genericExpand (net : String → Except PyErr Response) (url : String) :
    Except PyErr String :=
  match net url with
  | Except.error e => Except.error e
  | Except.ok r =>
    match raiseForStatus r with
    | Except.error _ => Except.error (PyErr.serviceError r.reason r.status_code)
    | Except.ok _ =>
      match r.location with
      | some loc => Except.ok loc
      | none => Except.error (PyErr.serviceError "That URL does not exist" r.status_code)

/-- The base `Shortener` class instance (`Shortener()`): `shorten` returns
the url unchanged, `expand` is the generic redirect probe. -/
def baseShortener (net : String → Except PyErr Response) : ShortenerImpl where
  shorten := fun url _ _ => Except.ok url
  expand := genericExpand net

/-- `Shortener.try_shorten`: delegate to `shorten`, catching only
`ServiceError` (in which case the original url is returned); any other
exception propagates. -/
def tryShortenMethod (impl : ShortenerImpl) (url : String)
    (custom key : Option String) : Except PyErr String :=
  match impl.shorten url custom key with
  | Except.ok s => Except.ok s
  | Except.error (PyErr.serviceError _ _) => Except.ok url
  | Except.error e => Except.error e

/-- Module-level `web.shorten`: `shorteners[service]` (a `KeyError` when
the service is unregistered) then delegate. -/
def shorten (url : String) (custom key : Option String) (service : String)
    (shorteners : List (String × ShortenerImpl)) : Except PyErr String :=
  match shorteners.lookup service with
  | none => Except.error (PyErr.keyError service)
  | some impl => impl.shorten url custom key

/-- Module-level `web.try_shorten`: `shorteners[service]` then delegate to
the instance's `try_shorten`. -/
def try_shorten (url : String) (custom key : Option String) (service : String)
    (shorteners : List (String × ShortenerImpl)) : Except PyErr String :=
  match shorteners.lookup service with
  | none => Except.error (PyErr.keyError service)
  | some impl => tryShortenMethod impl url custom key

/-- The `for name in shorteners: if name in url` scan of `web.expand`:
the first registered backend, in registration order, whose name is a
substring of `url`. -/
def findShortenerFor (url : String) : List (String × ShortenerImpl) → Option ShortenerImpl
  | [] => none
  | (name, impl) :: rest =>
    if strContains url name then some impl else findShortenerFor url rest

/-- Module-level `web.expand(url, service)`: explicit service means a
registry lookup (`KeyError` when absent); otherwise the substring scan,
falling back to a fresh base `Shortener()` when nothing matches. -/
def expand (net : String → Except PyErr Response) (url : String)
    (service : Option String) (shorteners : List (String × ShortenerImpl)) :
    Except PyErr String :=
  match service with
  | some s =>
    match shorteners.lookup s with
    | none => Except.error (PyErr.keyError s)
    | some impl => impl.expand url
  | none =>
    match findShortenerFor url shorteners with
    | some impl => impl.expand url
    | none => (baseShortener net).expand url

/-- `Gitio.shorten`, given the response of the POST to `http://git.io`
(the `post` oracle receives the url and the optional custom code, the
request's form data).  After `raise_for_status` (re-raised as
`ServiceError`): on status 201 read the `location` header (a `KeyError`
when absent); when a truthy (non-`None`, non-empty) custom code was
requested and the location does not contain it, raise
`ServiceError "That URL is already in use"`; otherwise return the
location.  Any other non-error status raises `ServiceError` with the
response body. -/
def gitioShorten (post : String → Option String → Except PyErr Response)
    (url : String) (custom _key : Option String) : Except PyErr String :=
  match post url custom with
  | Except.error e => Except.error e
  | Except.ok r =>
    match raiseForStatus r with
    | Except.error _ => Except.error (PyErr.serviceError r.reason r.status_code)
    | Except.ok _ =>
      if r.status_code = 201 then
        match r.location with
        | none => Except.error (PyErr.keyError "location")
        | some s =>
          match custom with
          | some c =>
            if !c.isEmpty && !(strContains s c) then
              Except.error (PyErr.serviceError "That URL is already in use" r.status_code)
            else Except.ok s
          | none => Except.ok s
      else Except.error (PyErr.serviceError r.text r.status_code)

/-- The module-level mutable state of `web.py` that `paste` can see: the
`pastebins` registry. -/
structure WebState where
  pastebins : List (String × PastebinImpl)

/-- Stateful rendering of `web.paste`: it reads `pastebins`, works on a
copy (`bins = pastebins.copy()`), and returns the result together with
the (untouched) module state. -/
def pasteS (data ext service : String) (st : WebState) : Except PyErr String × WebState :=
  let bins := st.pastebins
  (match popKey service bins with
   | none => Except.ok "Unable to paste data"
   | some (impl, rest) => pasteAttempts data ext ((service, impl) :: rest.reverse),
   st)

/-- `plugins/pagecheck.py:down`.  `netloc` is the external
`urllib.parse.urlparse(·).netloc` collaborator.  The `try` block wraps
both the GET and `raise_for_status`, but the `except` clause catches only
`requests.exceptions.ConnectionError`; an `HTTPError` from
`raise_for_status` (any 4xx/5xx status) therefore propagates to the
caller. -/
def down (net : String → Except PyErr Response) (netloc : String → String)
    (text : String) : Except PyErr String :=
  let text1 := if strContains text "://" then text else "http://" ++ text
  let target := "http://" ++ netloc text1
  match net target with
  | Except.error PyErr.connectionError => Except.ok (target ++ " seems to be down")
  | Except.error e => Except.error e
  | Except.ok r =>
    match raiseForStatus r with
    | Except.error e => Except.error e
    | Except.ok _ => Except.ok (target ++ " seems to be up")

/-- `plugins/pagecheck.py:isup`.  `splitDomain` is the external
`urlsplit`-based step computing `auth or path`; `findContent` is the
external BeautifulSoup step: the text of the `div` with id
`domain-main-content` in the page body, or `none` when the `div` is
missing (in which case `.text` on `None` raises `AttributeError`).
As in `down`, only `ConnectionError` is caught around the GET and
`raise_for_status`, so an `HTTPError` (4xx/5xx) propagates; the explicit
`status_code != 200` test is reached only for non-error statuses. -/
def isup (net : String → Except PyErr Response) (splitDomain : String → String)
    (findContent : String → Option String) (text : String) : Except PyErr String :=
  let url := pyStrip text
  let domain := splitDomain url
  match net ("http://isup.me/" ++ domain) with
  | Except.error PyErr.connectionError => Except.ok "Failed to get status."
  | Except.error e => Except.error e
  | Except.ok response =>
    match raiseForStatus response with
    | Except.error e => Except.error e
    | Except.ok _ =>
      if response.status_code ≠ 200 then Except.ok "Failed to get status."
      else
        match findContent response.text with
        | none => Except.error PyErr.attributeError
        | some divText =>
          let content := pyStrip divText
          if strContains content "not just you" then
            Except.ok ("It's not just you. " ++ url ++ " looks \x02\x034down\x02\x0f from here!")
          else if strContains content "is up" then
            Except.ok ("It's just you. " ++ url ++ " is \x02\x033up\x02\x0f.")
          else
            Except.ok "Huh? That doesn't look like a site on the interweb."

/-! ## Helper lemmas about the registry operations -/

theorem popKey_mem {α : Type} {k : String} {v : α} {l rest : List (String × α)}
    (h : popKey k l = some (v, rest)) : (k, v) ∈ l := by
  induction l generalizing rest with
  | nil => simp [popKey] at h
  | cons p t ih =>
    obtain ⟨k', v'⟩ := p
    rw [popKey] at h
    split at h
    · next hk =>
      simp only [Option.some.injEq, Prod.mk.injEq] at h
      subst hk
      rw [h.1]
      exact List.mem_cons_self _ _
    · next hk =>
      cases hpk : popKey k t with
      | none => rw [hpk] at h; exact Option.noConfusion h
      | some pr =>
        obtain ⟨v2, rest2⟩ := pr
        rw [hpk] at h
        simp only [Option.some.injEq, Prod.mk.injEq] at h
        rw [h.1] at hpk
        exact List.mem_cons_of_mem _ (ih hpk)

theorem popKey_rest_mem {α : Type} {k : String} {v : α} {l rest : List (String × α)}
    (h : popKey k l = some (v, rest)) : ∀ p ∈ rest, p ∈ l := by
  induction l generalizing rest with
  | nil => simp [popKey] at h
  | cons q t ih =>
    obtain ⟨k', v'⟩ := q
    rw [popKey] at h
    split at h
    · next hk =>
      simp only [Option.some.injEq, Prod.mk.injEq] at h
      intro p hp
      exact List.mem_cons_of_mem _ (h.2 ▸ hp)
    · next hk =>
      cases hpk : popKey k t with
      | none => rw [hpk] at h; exact Option.noConfusion h
      | some pr =>
        obtain ⟨v2, rest2⟩ := pr
        rw [hpk] at h
        simp only [Option.some.injEq, Prod.mk.injEq] at h
        rw [h.1] at hpk
        intro p hp
        rw [← h.2] at hp
        rcases List.mem_cons.mp hp with hh | ht
        · rw [hh]; exact List.mem_cons_self _ _
        · exact List.mem_cons_of_mem _ (ih hpk p ht)

theorem popKey_mem_rest {α : Type} {k : String} {v : α} {l rest : List (String × α)}
    (h : popKey k l = some (v, rest)) : ∀ p ∈ l, p.1 ≠ k → p ∈ rest := by
  induction l generalizing rest with
  | nil => simp [popKey] at h
  | cons q t ih =>
    obtain ⟨k', v'⟩ := q
    rw [popKey] at h
    split at h
    · next hk =>
      simp only [Option.some.injEq, Prod.mk.injEq] at h
      intro p hp hne
      rcases List.mem_cons.mp hp with hh | ht
      · exact absurd (by rw [hh]; exact hk) hne
      · exact h.2 ▸ ht
    · next hk =>
      cases hpk : popKey k t with
      | none => rw [hpk] at h; exact Option.noConfusion h
      | some pr =>
        obtain ⟨v2, rest2⟩ := pr
        rw [hpk] at h
        simp only [Option.some.injEq, Prod.mk.injEq] at h
        rw [h.1] at hpk
        intro p hp hne
        rw [← h.2]
        rcases List.mem_cons.mp hp with hh | ht
        · rw [hh]; exact List.mem_cons_self _ _
        · exact List.mem_cons_of_mem _ (ih hpk p ht hne)

theorem popKey_rest_key_ne {α : Type} {k : String} {v : α} {l rest : List (String × α)}
    (hnd : (l.map Prod.fst).Nodup) (h : popKey k l = some (v, rest)) :
    ∀ p ∈ rest, p.1 ≠ k := by
  induction l generalizing rest with
  | nil => simp [popKey] at h
  | cons q t ih =>
    obtain ⟨k', v'⟩ := q
    simp only [List.map_cons, List.nodup_cons] at hnd
    rw [popKey] at h
    split at h
    · next hk =>
      simp only [Option.some.injEq, Prod.mk.injEq] at h
      intro p hp hpk
      rw [← h.2] at hp
      have hmem : p.1 ∈ t.map Prod.fst := List.mem_map_of_mem _ hp
      rw [hpk, ← hk] at hmem
      exact hnd.1 hmem
    · next hk =>
      cases hpk : popKey k t with
      | none => rw [hpk] at h; exact Option.noConfusion h
      | some pr =>
        obtain ⟨v2, rest2⟩ := pr
        rw [hpk] at h
        simp only [Option.some.injEq, Prod.mk.injEq] at h
        rw [h.1] at hpk
        intro p hp
        rw [← h.2] at hp
        rcases List.mem_cons.mp hp with hh | ht
        · rw [hh]; exact hk
        · exact ih hnd.2 hpk p ht

theorem popKey_eq_none {α : Type} {k : String} {l : List (String × α)}
    (h : ∀ p ∈ l, p.1 ≠ k) : popKey k l = none := by
  induction l with
  | nil => rfl
  | cons q t ih =>
    obtain ⟨k', v'⟩ := q
    rw [popKey, if_neg (h _ (List.mem_cons_self _ _)),
      ih (fun p hp => h p (List.mem_cons_of_mem _ hp))]

/-- A paste attempt's result is a success or a `ServiceError` (the two
outcomes the fallback loop can absorb). -/
def okOrSvc (r : Except PyErr String) : Prop :=
  (∃ u, r = Except.ok u) ∨ ∃ m s, r = Except.error (PyErr.serviceError m s)

theorem pasteAttempts_all_fail {data ext : String} {l : List (String × PastebinImpl)}
    (h : ∀ p ∈ l, ∃ m s, p.2.paste data ext = Except.error (PyErr.serviceError m s)) :
    pasteAttempts data ext l = Except.ok "Unable to paste data" := by
  induction l with
  | nil => rfl
  | cons p t ih =>
    obtain ⟨n, b⟩ := p
    obtain ⟨m, s, hb⟩ := h _ (List.mem_cons_self _ _)
    have hb' : b.paste data ext = Except.error (PyErr.serviceError m s) := hb
    rw [pasteAttempts, hb']
    exact ih (fun q hq => h q (List.mem_cons_of_mem _ hq))

theorem pasteAttempts_success {data ext : String} {l : List (String × PastebinImpl)}
    (hall : ∀ p ∈ l, okOrSvc (p.2.paste data ext))
    (hex : ∃ p ∈ l, ∃ u, p.2.paste data ext = Except.ok u) :
    ∃ u, pasteAttempts data ext l = Except.ok u ∧
      ∃ p ∈ l, p.2.paste data ext = Except.ok u := by
  induction l with
  | nil => simp at hex
  | cons p t ih =>
    obtain ⟨n, b⟩ := p
    rcases hall _ (List.mem_cons_self _ _) with ⟨u, hu⟩ | ⟨m, s, hm⟩
    · refine ⟨u, ?_, ⟨(n, b), List.mem_cons_self _ _, hu⟩⟩
      have hu' : b.paste data ext = Except.ok u := hu
      rw [pasteAttempts, hu']
    · have hm' : b.paste data ext = Except.error (PyErr.serviceError m s) := hm
      rw [pasteAttempts, hm']
      have hex' : ∃ p ∈ t, ∃ u, p.2.paste data ext = Except.ok u := by
        obtain ⟨q, hq, u, hqu⟩ := hex
        rcases List.mem_cons.mp hq with hh | ht
        · rw [hh] at hqu; rw [hqu] at hm; exact absurd hm (by simp)
        · exact ⟨q, ht, u, hqu⟩
      obtain ⟨u, hres, q, hq, hqu⟩ :=
        ih (fun q hq => hall q (List.mem_cons_of_mem _ hq)) hex'
      exact ⟨u, hres, q, List.mem_cons_of_mem _ hq, hqu⟩

/-! ## Concrete backends used as witnesses -/

/-- A pastebin backend whose `paste` always raises `ServiceError`. -/
def failBin : PastebinImpl :=
  ⟨fun _ _ => Except.error (PyErr.serviceError "boom" 500)⟩

/-- A pastebin backend whose `paste` always succeeds. -/
def okBin : PastebinImpl :=
  ⟨fun _ _ => Except.ok "https://hastebin.com/key.txt"⟩

/-! ## Claims about `paste` -/

/-- C1: if every registered pastebin backend's `paste` raises
`ServiceError` on the given data and extension, then `paste data ext`
(with the default service) returns exactly the sentinel
`"Unable to paste data"` and propagates no exception. -/
theorem paste_all_fail_returns_sentinel (data ext : String)
    (registry : List (String × PastebinImpl))
    (h : ∀ p ∈ registry, ∃ m s,
      p.2.paste data ext = Except.error (PyErr.serviceError m s)) :
    paste data ext DEFAULT_PASTEBIN registry = Except.ok "Unable to paste data" := by
  rw [paste]
  cases hpop : popKey DEFAULT_PASTEBIN registry with
  | none => rfl
  | some pr =>
    obtain ⟨impl, rest⟩ := pr
    apply pasteAttempts_all_fail
    intro p hp
    rcases List.mem_cons.mp hp with hh | ht
    · rw [hh]; exact h _ (popKey_mem hpop)
    · exact h _ (popKey_rest_mem hpop _ (List.mem_reverse.mp ht))

/-- Witness for C1: a concrete registry whose single backend always
raises `ServiceError`. -/
theorem paste_all_fail_returns_sentinel_witness :
    paste "some data" "txt" DEFAULT_PASTEBIN [("hastebin", failBin)] =
      Except.ok "Unable to paste data" :=
  paste_all_fail_returns_sentinel "some data" "txt" [("hastebin", failBin)]
    (by
      intro p hp
      rw [List.mem_singleton.mp hp]
      exact ⟨"boom", 500, rfl⟩)

/-- C2: if the explicitly requested registered backend `X` raises
`ServiceError` but some other registered backend succeeds (and every
backend either succeeds or raises `ServiceError`), then
`paste data ext X` returns a succeeding other backend's URL, not the
failure sentinel and not an exception. -/
theorem paste_explicit_fail_other_succeeds (data ext X : String)
    (registry : List (String × PastebinImpl))
    (hnd : (registry.map Prod.fst).Nodup)
    (implX : PastebinImpl) (rest : List (String × PastebinImpl))
    (hpop : popKey X registry = some (implX, rest))
    (hXfail : ∃ m s, implX.paste data ext = Except.error (PyErr.serviceError m s))
    (hall : ∀ p ∈ registry, okOrSvc (p.2.paste data ext))
    (hother : ∃ p ∈ registry, p.1 ≠ X ∧ ∃ u, p.2.paste data ext = Except.ok u) :
    ∃ u, paste data ext X registry = Except.ok u ∧
      ∃ p ∈ registry, p.1 ≠ X ∧ p.2.paste data ext = Except.ok u := by
  rw [paste, hpop]
  have hsub : ∀ p ∈ (X, implX) :: rest.reverse, p ∈ registry := by
    intro p hp
    rcases List.mem_cons.mp hp with hh | ht
    · rw [hh]; exact popKey_mem hpop
    · exact popKey_rest_mem hpop _ (List.mem_reverse.mp ht)
  obtain ⟨q, hq, hqne, u, hqu⟩ := hother
  have hqrest : q ∈ rest.reverse := List.mem_reverse.mpr (popKey_mem_rest hpop q hq hqne)
  obtain ⟨u', hres, p', hp', hp'u⟩ :=
    pasteAttempts_success (l := (X, implX) :: rest.reverse)
      (fun p hp => hall p (hsub p hp))
      ⟨q, List.mem_cons_of_mem _ hqrest, u, hqu⟩
  refine ⟨u', hres, p', hsub p' hp', ?_, hp'u⟩
  rcases List.mem_cons.mp hp' with hh | ht
  · obtain ⟨m, s, hm⟩ := hXfail
    rw [hh] at hp'u
    rw [hp'u] at hm
    exact absurd hm (by simp)
  · exact popKey_rest_key_ne hnd hpop p' (List.mem_reverse.mp ht)

/-- Witness for C2: service `"a"` fails, the other registered backend
`"b"` succeeds, and `paste` returns `"b"`'s URL. -/
theorem paste_explicit_fail_other_succeeds_witness :
    ∃ u, paste "d" "txt" "a" [("a", failBin), ("b", okBin)] = Except.ok u ∧
      ∃ p ∈ [("a", failBin), ("b", okBin)], p.1 ≠ "a" ∧
        p.2.paste "d" "txt" = Except.ok u :=
  paste_explicit_fail_other_succeeds "d" "txt" "a" [("a", failBin), ("b", okBin)]
    (by decide) failBin [("b", okBin)] rfl ⟨"boom", 500, rfl⟩
    (by
      intro p hp
      rcases List.mem_cons.mp hp with hh | ht
      · rw [hh]; exact Or.inr ⟨"boom", 500, rfl⟩
      · rw [List.mem_singleton.mp ht]
        exact Or.inl ⟨"https://hastebin.com/key.txt", rfl⟩)
    ⟨("b", okBin), by simp, by decide, "https://hastebin.com/key.txt", rfl⟩

/-- Counterexample to C9 as stated: with a registry whose only backend
always succeeds, `paste` under an unregistered service name returns the
failure sentinel without attempting (or returning the URL of) the
succeeding backend. -/
theorem paste_unknown_service_counterexample :
    paste "d" "txt" "nosuch" [("hastebin", okBin)] = Except.ok "Unable to paste data" ∧
      okBin.paste "d" "txt" = Except.ok "https://hastebin.com/key.txt" :=
  ⟨rfl, rfl⟩

/-- C9 (amended): `paste` with a service name absent from the pastebin
registry raises nothing, but it attempts no backend at all: it returns
the failure sentinel immediately. -/
theorem paste_unknown_service_sentinel (data ext S : String)
    (registry : List (String × PastebinImpl))
    (hS : ∀ p ∈ registry, p.1 ≠ S) :
    paste data ext S registry = Except.ok "Unable to paste data" := by
  rw [paste, popKey_eq_none hS]

/-- Witness for the amended C9 at a concrete registry and service name. -/
theorem paste_unknown_service_sentinel_witness :
    paste "x" "py" "nosuch" [("hastebin", failBin)] = Except.ok "Unable to paste data" :=
  paste_unknown_service_sentinel "x" "py" "nosuch" [("hastebin", failBin)]
    (by intro p hp; rw [List.mem_singleton.mp hp]; decide)

/-- C10: a `paste` call leaves the pastebin registry unchanged — the
stateful rendering returns exactly the pre-call module state, and its
string result agrees with the pure `paste` on the pre-call registry. -/
theorem pasteS_preserves_registry (data ext service : String) (st : WebState) :
    (pasteS data ext service st).2 = st ∧
      (pasteS data ext service st).1 = paste data ext service st.pastebins :=
  ⟨rfl, rfl⟩

/-! ## Claims about the shorteners -/

/-- A shortener backend whose `shorten` and `expand` always raise
`ServiceError`. -/
def svcFailShortener : ShortenerImpl :=
  ⟨fun _ _ _ => Except.error (PyErr.serviceError "err" 502),
   fun _ => Except.error (PyErr.serviceError "err" 502)⟩

/-- C3: `try_shorten` never raises `ServiceError`; for a registered
service whose backend's `shorten` raises `ServiceError` it returns the
original url unchanged, and when `shorten` succeeds it returns exactly
`shorten`'s result. -/
theorem try_shorten_never_service_error (url : String) (custom key : Option String)
    (service : String) (shorteners : List (String × ShortenerImpl)) :
    (∀ m s, try_shorten url custom key service shorteners ≠
      Except.error (PyErr.serviceError m s)) ∧
    ∀ impl, shorteners.lookup service = some impl →
      ((∀ m s, impl.shorten url custom key = Except.error (PyErr.serviceError m s) →
          try_shorten url custom key service shorteners = Except.ok url) ∧
        ∀ v, impl.shorten url custom key = Except.ok v →
          try_shorten url custom key service shorteners = Except.ok v) := by
  constructor
  · intro m s
    cases hl : shorteners.lookup service with
    | none => simp [try_shorten, hl]
    | some impl =>
      cases himpl : impl.shorten url custom key with
      | ok v => simp [try_shorten, hl, tryShortenMethod, himpl]
      | error e => cases e <;> simp [try_shorten, hl, tryShortenMethod, himpl]
  · intro impl hl
    constructor
    · intro m s hm
      simp [try_shorten, hl, tryShortenMethod, hm]
    · intro v hv
      simp [try_shorten, hl, tryShortenMethod, hv]

/-- Witness for C3: a concrete registry whose backend always raises
`ServiceError`, on which `try_shorten` returns the input url. -/
theorem try_shorten_never_service_error_witness :
    try_shorten "http://example.com" none none "is.gd"
      [("is.gd", svcFailShortener)] = Except.ok "http://example.com" :=
  ((try_shorten_never_service_error "http://example.com" none none "is.gd"
      [("is.gd", svcFailShortener)]).2 svcFailShortener rfl).1 "err" 502 rfl

theorem findShortenerFor_eq_none {url : String} {l : List (String × ShortenerImpl)}
    (h : ∀ p ∈ l, strContains url p.1 = false) : findShortenerFor url l = none := by
  induction l with
  | nil => rfl
  | cons q t ih =>
    obtain ⟨n, impl⟩ := q
    have hn : strContains url n = false := h _ (List.mem_cons_self _ _)
    simp [findShortenerFor, hn]
    exact ih (fun p hp => h p (List.mem_cons_of_mem _ hp))

theorem findShortenerFor_first {url n : String} {impl : ShortenerImpl}
    {pre post : List (String × ShortenerImpl)}
    (hpre : ∀ p ∈ pre, strContains url p.1 = false)
    (hn : strContains url n = true) :
    findShortenerFor url (pre ++ (n, impl) :: post) = some impl := by
  induction pre with
  | nil => simp [findShortenerFor, hn]
  | cons q t ih =>
    obtain ⟨n', impl'⟩ := q
    have hq : strContains url n' = false := hpre _ (List.mem_cons_self _ _)
    simp only [List.cons_append, findShortenerFor, hq, Bool.false_eq_true, if_false]
    exact ih (fun p hp => hpre p (List.mem_cons_of_mem _ hp))

/-- A shortener backend that succeeds with a fixed tag, used to
instantiate dispatch statements concretely. -/
def tagShortener (tag : String) : ShortenerImpl :=
  ⟨fun url _ _ => Except.ok url, fun _ => Except.ok tag⟩

/-- A network oracle on which every request fails at the connection
level. -/
def netNone : String → Except PyErr Response :=
  fun _ => Except.error PyErr.connectionError

/-- C4: `expand` with no explicit service dispatches to the first
registered shortener, in registration order, whose name is a substring of
the url; when no registered name is a substring of the url it uses the
generic redirect-probe variant (a fresh base `Shortener`). -/
theorem expand_dispatch (net : String → Except PyErr Response) (url : String)
    (shorteners : List (String × ShortenerImpl)) :
    (∀ pre n impl post, shorteners = pre ++ (n, impl) :: post →
      (∀ p ∈ pre, strContains url p.1 = false) → strContains url n = true →
      expand net url none shorteners = impl.expand url) ∧
    ((∀ p ∈ shorteners, strContains url p.1 = false) →
      expand net url none shorteners = genericExpand net url) := by
  constructor
  · intro pre n impl post hdec hpre hn
    rw [hdec]
    simp [expand, findShortenerFor_first hpre hn]
  · intro h
    simp [expand, findShortenerFor_eq_none h, baseShortener]

/-- Witness for C4: a two-entry registry in registration order, a url
matching the second entry only, and a url matching no entry. -/
theorem expand_dispatch_witness :
    expand netNone "http://goo.gl/abc" none
      [("is.gd", tagShortener "A"), ("goo.gl", tagShortener "B")] =
        (tagShortener "B").expand "http://goo.gl/abc" ∧
    expand netNone "http://example.com/x" none
      [("is.gd", tagShortener "A"), ("goo.gl", tagShortener "B")] =
        genericExpand netNone "http://example.com/x" :=
  ⟨(expand_dispatch netNone "http://goo.gl/abc"
      [("is.gd", tagShortener "A"), ("goo.gl", tagShortener "B")]).1
      [("is.gd", tagShortener "A")] "goo.gl" (tagShortener "B") [] rfl
      (by intro p hp; rw [List.mem_singleton.mp hp]; decide)
      (by decide),
   (expand_dispatch netNone "http://example.com/x"
      [("is.gd", tagShortener "A"), ("goo.gl", tagShortener "B")]).2
      (by
        intro p hp
        rcases List.mem_cons.mp hp with hh | ht
        · rw [hh]; decide
        · rw [List.mem_singleton.mp ht]; decide)⟩

/-- C5: `Gitio.shorten` with a truthy custom code, on a 201 response
whose `location` header exists: when the location does not contain the
requested code the call raises `ServiceError` (the "already in use"
post-condition failure) even though the HTTP layer succeeded; when the
location does contain the code, the location is returned. -/
theorem gitio_custom_code_postcondition
    (post : String → Option String → Except PyErr Response)
    (url c : String) (key : Option String) (r : Response) (s : String)
    (hpost : post url (some c) = Except.ok r)
    (h201 : r.status_code = 201)
    (hc : c.isEmpty = false)
    (hloc : r.location = some s) :
    (strContains s c = false →
      gitioShorten post url (some c) key =
        Except.error (PyErr.serviceError "That URL is already in use" 201)) ∧
    (strContains s c = true → gitioShorten post url (some c) key = Except.ok s) := by
  have hok : raiseForStatus r = Except.ok () := by
    rw [raiseForStatus, h201]
    simp
  constructor <;> intro hsc <;>
    simp [gitioShorten, hpost, hok, h201, hloc, hc, hsc]

/-- The concrete 201 response used in the C5 witness: the location does
not contain the requested custom code. -/
def gitioResp : Response := ⟨201, "Created", "", some "https://git.io/other"⟩

/-- A POST oracle that always answers with `gitioResp`. -/
def gitioPost : String → Option String → Except PyErr Response :=
  fun _ _ => Except.ok gitioResp

/-- Witness for C5: a 201 response whose location lacks the custom code
makes `Gitio.shorten` fail with the "already in use" `ServiceError`. -/
theorem gitio_custom_code_postcondition_witness :
    gitioShorten gitioPost "http://example.com" (some "mycode") none =
      Except.error (PyErr.serviceError "That URL is already in use" 201) :=
  (gitio_custom_code_postcondition gitioPost "http://example.com" "mycode" none
      gitioResp "https://git.io/other" rfl rfl rfl rfl).1 (by decide)

/-! ## Claims about the page-check plugin -/

/-- A response with a 404 status. -/
def respNotFound : Response := ⟨404, "Not Found", "404 page", none⟩

/-- A network oracle on which every GET yields the 404 response. -/
def net404 : String → Except PyErr Response := fun _ => Except.ok respNotFound

/-- A network oracle on which every GET raises `ConnectionError`. -/
def netConnFail : String → Except PyErr Response :=
  fun _ => Except.error PyErr.connectionError

/-- A `urlparse(·).netloc` oracle returning a fixed host. -/
def hostOracle : String → String := fun _ => "example.com"

/-- Counterexample to C6 as stated: an HTTP response with a non-2xx
status does not yield an "up" string — `down` propagates the
`HTTPError` that `raise_for_status` raises, because the `except` clause
catches only `ConnectionError`. -/
theorem down_nonok_counterexample :
    down net404 hostOracle "example.com" = Except.error (PyErr.httpError 404) := rfl

/-- C6 (amended): `down` classifies a connection-level failure as a
string containing "down" and a non-error-status response as a string
containing "up", but a 4xx/5xx response makes it raise `HTTPError` to
the caller instead of returning a verdict. -/
theorem down_classification (net : String → Except PyErr Response)
    (netloc : String → String) (text target : String)
    (htarget : target =
      "http://" ++ netloc (if strContains text "://" then text else "http://" ++ text)) :
    (net target = Except.error PyErr.connectionError →
      down net netloc text = Except.ok (target ++ " seems to be down")) ∧
    (∀ r, net target = Except.ok r → ¬(400 ≤ r.status_code ∧ r.status_code < 600) →
      down net netloc text = Except.ok (target ++ " seems to be up")) ∧
    (∀ r, net target = Except.ok r → 400 ≤ r.status_code → r.status_code < 600 →
      down net netloc text = Except.error (PyErr.httpError r.status_code)) := by
  subst htarget
  refine ⟨fun h => ?_, fun r hr hst => ?_, fun r hr h4 h6 => ?_⟩
  · simp [down, h]
  · have hok : raiseForStatus r = Except.ok () := by rw [raiseForStatus, if_neg hst]
    simp [down, hr, hok]
  · have herr : raiseForStatus r = Except.error (PyErr.httpError r.status_code) := by
      rw [raiseForStatus, if_pos ⟨h4, h6⟩]
    simp [down, hr, herr]

/-- Witness for the amended C6: a connection failure yields the "down"
string. -/
theorem down_classification_witness :
    down netConnFail hostOracle "example.com" =
      Except.ok "http://example.com seems to be down" :=
  (down_classification netConnFail hostOracle "example.com" "http://example.com"
      rfl).1 rfl

/-- A `urlsplit`-based `auth or path` oracle returning its input. -/
def domOracle : String → String := fun s => s

/-- A BeautifulSoup oracle that never finds the verdict `div`. -/
def noDiv : String → Option String := fun _ => none

/-- Counterexample to C7 as stated: a non-2xx aggregator response does
not yield the fixed failure message — `isup` propagates the `HTTPError`
raised by `raise_for_status`, because only `ConnectionError` is
caught; the explicit `status_code != 200` check is never reached. -/
theorem isup_nonok_counterexample :
    isup net404 domOracle noDiv "example.com" = Except.error (PyErr.httpError 404) := rfl

/-- C7 (amended): `isup` returns the fixed "Failed to get status."
message on a connection failure and on a non-error status other than
200, but a 4xx/5xx response makes it raise `HTTPError` to the caller. -/
theorem isup_error_paths (net : String → Except PyErr Response)
    (splitDomain : String → String) (findContent : String → Option String)
    (text : String) :
    (net ("http://isup.me/" ++ splitDomain (pyStrip text)) =
        Except.error PyErr.connectionError →
      isup net splitDomain findContent text = Except.ok "Failed to get status.") ∧
    (∀ r, net ("http://isup.me/" ++ splitDomain (pyStrip text)) = Except.ok r →
      400 ≤ r.status_code → r.status_code < 600 →
      isup net splitDomain findContent text =
        Except.error (PyErr.httpError r.status_code)) ∧
    (∀ r, net ("http://isup.me/" ++ splitDomain (pyStrip text)) = Except.ok r →
      ¬(400 ≤ r.status_code ∧ r.status_code < 600) → r.status_code ≠ 200 →
      isup net splitDomain findContent text = Except.ok "Failed to get status.") := by
  refine ⟨fun h => ?_, fun r hr h4 h6 => ?_, fun r hr hst hne => ?_⟩
  · simp [isup, h]
  · have herr : raiseForStatus r = Except.error (PyErr.httpError r.status_code) := by
      rw [raiseForStatus, if_pos ⟨h4, h6⟩]
    simp [isup, hr, herr]
  · have hok : raiseForStatus r = Except.ok () := by rw [raiseForStatus, if_neg hst]
    simp [isup, hr, hok, hne]

/-- Witness for the amended C7: a connection failure yields the fixed
failure message. -/
theorem isup_error_paths_witness :
    isup netConnFail domOracle noDiv "example.com" = Except.ok "Failed to get status." :=
  (isup_error_paths netConnFail domOracle noDiv "example.com").1 rfl

/-- C8: on a 200 aggregator response, the verdict is decided by the
fixed marker substrings of the extracted (and stripped) `div` text:
"not just you" wins and gives the "down" verdict, otherwise "is up"
gives the "up" verdict, and neither marker gives the fixed "doesn't look
like a site" message. -/
theorem isup_verdict (net : String → Except PyErr Response)
    (splitDomain : String → String) (findContent : String → Option String)
    (text : String) (r : Response) (c : String)
    (hr : net ("http://isup.me/" ++ splitDomain (pyStrip text)) = Except.ok r)
    (h200 : r.status_code = 200)
    (hc : findContent r.text = some c) :
    (strContains (pyStrip c) "not just you" = true →
      isup net splitDomain findContent text =
        Except.ok ("It's not just you. " ++ pyStrip text ++
          " looks \x02\x034down\x02\x0f from here!")) ∧
    (strContains (pyStrip c) "not just you" = false →
      strContains (pyStrip c) "is up" = true →
      isup net splitDomain findContent text =
        Except.ok ("It's just you. " ++ pyStrip text ++ " is \x02\x033up\x02\x0f.")) ∧
    (strContains (pyStrip c) "not just you" = false →
      strContains (pyStrip c) "is up" = false →
      isup net splitDomain findContent text =
        Except.ok "Huh? That doesn't look like a site on the interweb.") := by
  have hok : raiseForStatus r = Except.ok () := by
    rw [raiseForStatus, h200]
    simp
  refine ⟨fun h1 => ?_, fun h1 h2 => ?_, fun h1 h2 => ?_⟩
  · simp [isup, hr, hok, h200, hc, h1]
  · simp [isup, hr, hok, h200, hc, h1, h2]
  · simp [isup, hr, hok, h200, hc, h1, h2]

/-- The concrete 200 aggregator response used in the C8 witness. -/
def resp200 : Response := ⟨200, "OK", "page body", none⟩

/-- A network oracle on which every GET yields the 200 response. -/
def netUp : String → Except PyErr Response := fun _ => Except.ok resp200

/-- A BeautifulSoup oracle extracting a fixed "is up" verdict text. -/
def findUpDiv : String → Option String := fun _ => some "Example.com is up."

/-- Witness for C8: a 200 response whose extracted text contains
"is up" yields the "up" verdict string. -/
theorem isup_verdict_witness :
    isup netUp domOracle findUpDiv "example.com" =
      Except.ok ("It's just you. " ++ pyStrip "example.com" ++ " is \x02\x033up\x02\x0f.") :=
  (isup_verdict netUp domOracle findUpDiv "example.com" resp200
      "Example.com is up." rfl rfl rfl).2.1 (by decide) (by decide)

end CloudBot
